import Mathlib

/-!
Shallow embedding of `fatumbot.py` (class `FatumBot`): the per-user profile
store (`DB` dict), the rate limiter (`__rateLimit`), the orchestrator
operations (`setLocation`, `setRadius`, `setSource`, `fetchAnomaly`,
`fetchBlindspot`) and the coordinate parser (`stringToGeo`).

Modelling conventions:
- The mutable class dict `DB` is a function `String → Option Profile`;
  each Python mutation produces a new map (the file write in `__toDB`
  is the durable persistence of that same map and carries no extra state).
- `time.time()` is an explicit `now : Int` parameter; the HTTP collaborator
  `__fromAPI` is a function `api : String → ApiJson` from the query-parameter
  string to the parsed JSON (a successful decode or the `{status, error}`
  wrapper built for non-ok responses).
- A Python path that returns `None` (falling off the end of a fetch) or
  raises (`points[0]` on an empty list, `json['status']` on a missing key,
  `POINT_TYPE[i]` out of range) yields `reply = none`; a returned message
  list yields `reply = some l`.
- Numeric point fields rendered with `'{:.2f}'` are carried as their
  rendered text (`String`); no claim depends on float formatting.
-/

namespace Fatum

structure Location where
  lat : String
  lon : String
  deriving DecidableEq, Repr

structure Profile where
  loc : Location
  rad : Int
  src : String
  ts : Option Int
  deriving DecidableEq, Repr

/-- The `DB` dict of `FatumBot`: user id to profile dataset. -/
def DBT : Type := String → Option Profile

/-- One entry of `json['result']['points']`. -/
structure Point where
  ptype : Int
  lat : String
  lon : String
  power : String
  radius : String
  z_score : String
  distance : String
  bearing : String
  deriving DecidableEq, Repr

/-- A parsed API response: `result` abbreviates the `points` list of
`json['result']`; `status` and `error` are the keys of the error wrapper. -/
structure ApiJson where
  result : Option (List Point)
  status : Option Int
  error : Option String
  deriving DecidableEq, Repr

def DEFAULT_RADIUS : Int := 2000

def DEFAULT_RADIUS_MIN : Int := 1000

def DEFAULT_RADIUS_MAX : Int := 10000

def DEFAULT_SOURCE : String := "temporal"

def SOURCES : List String := ["temporal", "pseudo"]

def POINT_TYPE : List String := ["Blindspot", "Attractor", "Void"]

def REQUEST_LIMIT : Int := 10

/-- Python `str(list)` rendering used by `MSG_SOURCE_AVAILABLE.format(self.SOURCES)`. -/
def pyReprList (l : List String) : String :=
  "[" ++ String.intercalate ", " (l.map (fun s => "\x27" ++ s ++ "\x27")) ++ "]"

def MSG_SET_LOCATION : String :=
  "Please set your location first.\nOn the Telegram mobile-app use the in-built function📎 > `Send location`.\nYou can also provide a `<Google Maps URL>`.\nLatitude and Longitude can also be provided in this format: `28.3809,-16.5379`"

def MSG_DEFAULT_RADIUS : String :=
  "Location set with radius 2000.\nUse `/radius <radius>` if you want to change your search radius."

def MSG_SET_RADIUS_LIMITS : String :=
  "Please provide a radius in meters.\nMin. " ++ toString DEFAULT_RADIUS_MIN ++ " and max. " ++ toString DEFAULT_RADIUS_MAX ++ "."

def MSG_RADIUS_SET (radius : Int) : String :=
  "Your search radius has been set to " ++ toString radius ++ " meters!"

def MSG_SOURCE_SET (source : String) : String :=
  "Your entropy source has been set to \"" ++ source ++ "\"!"

def MSG_SOURCE_INVALID (source current : String) : String :=
  "An entropy source with the name \"" ++ source ++ "\" does not exist! Using \"" ++ current ++ "\""

def MSG_SOURCE_AVAILABLE : String :=
  "The following sources are available: " ++ pyReprList SOURCES

def MSG_RATE_LIMIT_REACHED (seconds : Int) : String :=
  "Sorry, you are requesting too many points in a too short time period.\nPlease try again in " ++ toString seconds ++ " seconds."

def MSG_ANOMALY_FOUND (ptype src lat lon power radius zscore distance bearing : String) : String :=
  ptype ++ " anomaly found:\nEntropy: `" ++ src ++ "`\nLatitude: `" ++ lat ++ "`\nLongitue: `" ++ lon ++ "`\nPower: `" ++ power ++ "`\nRadius: `" ++ radius ++ "`m\nZ-score: `" ++ zscore ++ "`\nDistance: `" ++ distance ++ "`m\nBearing: `" ++ bearing ++ "`°"

def MSG_BLINDSPOT_FOUND (src lat lon distance bearing : String) : String :=
  "Blindspot found:\nEntropy: `" ++ src ++ "`\nLatitude: `" ++ lat ++ "`\nLongitue: `" ++ lon ++ "`\nDistance: `" ++ distance ++ "`m\nBearing: `" ++ bearing ++ "`°"

def MSG_NO_ANOMALY_FOUND : String :=
  "Sorry, no anomaly could be found. Please increase your search radius or try again."

/-- Embedding of `__toDB(id, field, value)`: writes the field (given here as a record
update) only when the id is present, persisting the whole store; returns
`True` on write, `False` when the id is unknown. -/
def toDB (db : DBT) (id : String) (upd : Profile → Profile) : Bool × DBT :=
  match db id with
  | some _ => (true, fun k => if k = id then (db k).map upd else db k)
  | none => (false, db)

/-- Embedding of `__fromDB(id)`: the dataset for an id, `False` (here `none`) if absent. -/
def fromDB (db : DBT) (id : String) : Option Profile := db id

/-- Embedding of `__initUserLocation(id, loc, rad, src)`: creates the dataset with the
given fields (and no `ts`) when the id is new, else overwrites only `loc`. -/
def initUserLocation (db : DBT) (id : String) (loc : Location) (rad : Int) (src : String) : DBT :=
  match db id with
  | none => fun k => if k = id then some ⟨loc, rad, src, none⟩ else db k
  | some _ => fun k => if k = id then (db k).map (fun p => { p with loc := loc }) else db k

/-- Embedding of `__setDefaultParams(user)`: the query-parameter string
`latitude={}&longitude={}&radius={}&source={}` filled from the dataset. -/
def setDefaultParams (user : Profile) : String :=
  "latitude=" ++ user.loc.lat ++ "&longitude=" ++ user.loc.lon ++ "&radius=" ++ toString user.rad ++ "&source=" ++ user.src

/-- Embedding of `__rateLimit(id)`: with no `ts` field, or an elapsed time of at least
`REQUEST_LIMIT`, writes `now` as the new `ts` and returns `REQUEST_LIMIT`;
otherwise returns the elapsed time without writing. `none` models the
`KeyError` of `self.DB[id]` for an unknown id (unreachable from callers). -/
def rateLimit (db : DBT) (id : String) (now : Int) : Option (Int × DBT) :=
  match db id with
  | none => none
  | some user =>
    match user.ts with
    | some t =>
      if now - t < REQUEST_LIMIT then some (now - t, db)
      else some (REQUEST_LIMIT, (toDB db id (fun p => { p with ts := some now })).2)
    | none => some (REQUEST_LIMIT, (toDB db id (fun p => { p with ts := some now })).2)

/-- Embedding of `setLocation(id, lat, lon)`: update `loc` via `__toDB`, falling back to
`__initUserLocation` for a new id; always replies `MSG_DEFAULT_RADIUS`. -/
def setLocation (db : DBT) (id lat lon : String) : List String × DBT :=
  let location : Location := ⟨lat, lon⟩
  match toDB db id (fun p => { p with loc := location }) with
  | (true, db1) => ([MSG_DEFAULT_RADIUS], db1)
  | (false, db1) => ([MSG_DEFAULT_RADIUS], initUserLocation db1 id location DEFAULT_RADIUS DEFAULT_SOURCE)

/-- Embedding of `setRadius(id, radius)`: range check first, then `__toDB` on `rad`. -/
def setRadius (db : DBT) (id : String) (radius : Int) : List String × DBT :=
  if radius < DEFAULT_RADIUS_MIN ∨ radius > DEFAULT_RADIUS_MAX then
    ([MSG_SET_RADIUS_LIMITS], db)
  else
    match toDB db id (fun p => { p with rad := radius }) with
    | (true, db1) => ([MSG_RADIUS_SET radius], db1)
    | (false, db1) => ([MSG_SET_LOCATION], db1)

/-- Embedding of `setSource(id, source)`: membership check in `SOURCES`, then `__toDB` on
`src`; an unknown source replies with the current source and the list. -/
def setSource (db : DBT) (id source : String) : List String × DBT :=
  if source ∈ SOURCES then
    match toDB db id (fun p => { p with src := source }) with
    | (true, db1) => ([MSG_SOURCE_SET source], db1)
    | (false, db1) => ([MSG_SET_LOCATION], db1)
  else
    match fromDB db id with
    | some user => ([MSG_SOURCE_INVALID source user.src, MSG_SOURCE_AVAILABLE], db)
    | none => ([MSG_SET_LOCATION], db)

/-- Python list indexing `l[i]` with negative-index wrapping; `none` is an
`IndexError`. -/
def pyIndex (l : List String) (i : Int) : Option String :=
  if 0 ≤ i then l.get? i.toNat
  else if 0 ≤ (l.length : Int) + i then l.get? ((l.length : Int) + i).toNat
  else none

/-- Outcome of a fetch operation: the reply (or `none` for a `None` return or
an uncaught exception), the final store, and the parameter strings of the API
requests that were issued. -/
structure FetchOut where
  reply : Option (List String)
  db : DBT
  calls : List String

/-- Embedding of `fetchAnomaly(id, type)`: profile check, rate limit, API call with the
profile's params plus `&type=`, then result/error interpretation (418 is the
no-anomaly sentinel). -/
def fetchAnomaly (db0 : DBT) (id ty : String) (now : Int) (api : String → ApiJson) : FetchOut :=
  match db0 id with
  | none => ⟨some [MSG_SET_LOCATION], db0, []⟩
  | some _ =>
    match rateLimit db0 id now with
    | none => ⟨none, db0, []⟩
    | some (req, db1) =>
      if req < REQUEST_LIMIT then
        ⟨some [MSG_RATE_LIMIT_REACHED (REQUEST_LIMIT - req)], db1, []⟩
      else
        match db1 id with
        | none => ⟨none, db1, []⟩
        | some user =>
          let params := setDefaultParams user ++ "&type=" ++ ty
          let j := api params
          match j.result with
          | some points =>
            match points with
            | point :: _ =>
              match pyIndex POINT_TYPE point.ptype with
              | some tname =>
                ⟨some [MSG_ANOMALY_FOUND tname user.src point.lat point.lon point.power point.radius point.z_score point.distance point.bearing,
                       "@@" ++ point.lat ++ "," ++ point.lon], db1, [params]⟩
              | none => ⟨none, db1, [params]⟩
            | [] => ⟨none, db1, [params]⟩
          | none =>
            match j.error with
            | some e =>
              match j.status with
              | some s =>
                if s = 418 then ⟨some [MSG_NO_ANOMALY_FOUND], db1, [params]⟩
                else ⟨some [e], db1, [params]⟩
              | none => ⟨none, db1, [params]⟩
            | none => ⟨none, db1, [params]⟩

/-- Embedding of `fetchBlindspot(id, type)`: profile check, rate limit, temporary `src`
override to `pseudo` when `type == 'pseudo'`, API call, restore of the
recorded source, then result/error interpretation. -/
def fetchBlindspot (db0 : DBT) (id ty : String) (now : Int) (api : String → ApiJson) : FetchOut :=
  match db0 id with
  | none => ⟨some [MSG_SET_LOCATION], db0, []⟩
  | some _ =>
    match rateLimit db0 id now with
    | none => ⟨none, db0, []⟩
    | some (req, db1) =>
      if req < REQUEST_LIMIT then
        ⟨some [MSG_RATE_LIMIT_REACHED (REQUEST_LIMIT - req)], db1, []⟩
      else
        match db1 id with
        | none => ⟨none, db1, []⟩
        | some user =>
          let source := user.src
          let esrc := if ty = "pseudo" then "pseudo" else user.src
          let db2 := if ty = "pseudo" then (toDB db1 id (fun p => { p with src := "pseudo" })).2 else db1
          match db2 id with
          | none => ⟨none, db2, []⟩
          | some user2 =>
            let params := setDefaultParams user2
            let j := api params
            let db3 := (toDB db2 id (fun p => { p with src := source })).2
            match j.result with
            | some points =>
              match points with
              | point :: _ =>
                ⟨some [MSG_BLINDSPOT_FOUND esrc point.lat point.lon point.distance point.bearing,
                       "geo:" ++ point.lat ++ "," ++ point.lon], db3, [params]⟩
              | [] => ⟨none, db3, [params]⟩
            | none =>
              match j.error with
              | some e => ⟨some [e], db3, [params]⟩
              | none => ⟨none, db3, [params]⟩

/-! Coordinate parser: `stringToGeo` applies
`re.search(r'([-+]?\d*\.?\d+)[,| ] ?([-+]?\d*\.?\d+)')` and returns the two
captured groups. The pattern is embedded as a backtracking matcher whose
candidate lists are ordered exactly as Python's engine explores them:
leftmost start position first, greedy quantifiers longest-first. -/

def isSign (c : Char) : Bool := c = '-' || c = '+'

/-- Candidates for a one-character optional atom (`[-+]?`, `\.?`), preferred
consumption first. Each candidate is (captured text, remaining input). -/
def optChar (p : Char → Bool) : List Char → List (List Char × List Char)
  | [] => [([], [])]
  | c :: rest => if p c then [([c], rest), ([], c :: rest)] else [([], c :: rest)]

/-- Candidates for `\d*`, longest first. -/
def starDigits : List Char → List (List Char × List Char)
  | [] => [([], [])]
  | c :: rest =>
    if c.isDigit then (starDigits rest).map (fun pr => (c :: pr.1, pr.2)) ++ [([], c :: rest)]
    else [([], c :: rest)]

/-- Candidates for `\d+`, longest first. -/
def plusDigits : List Char → List (List Char × List Char)
  | [] => []
  | c :: rest =>
    if c.isDigit then (starDigits rest).map (fun pr => (c :: pr.1, pr.2)) else []

/-- Sequencing of two sub-patterns, backtracking order. -/
def seqRe (f g : List Char → List (List Char × List Char)) (s : List Char) : List (List Char × List Char) :=
  (f s).flatMap (fun pr => (g pr.2).map (fun qr => (pr.1 ++ qr.1, qr.2)))

/-- Candidates for one capture group `[-+]?\d*\.?\d+`. -/
def numToken : List Char → List (List Char × List Char) :=
  seqRe (optChar isSign) (seqRe starDigits (seqRe (optChar (fun c => c = '.')) plusDigits))

/-- The separator class `[,| ]`: remaining input after consuming one of the
three characters, or no candidate. -/
def sepChar : List Char → List (List Char)
  | [] => []
  | c :: rest => if c = ',' || c = '|' || c = ' ' then [rest] else []

/-- The optional trailing space ` ?`, preferred consumption first. -/
def optSpace : List Char → List (List Char)
  | [] => [[]]
  | c :: rest => if c = ' ' then [rest, c :: rest] else [c :: rest]

/-- The whole pattern anchored at the head of the input: the first complete
match in backtracking order, as the two captured groups. -/
def matchAt (s : List Char) : Option (List Char × List Char) :=
  (numToken s).findSome? fun pr =>
    (sepChar pr.2).findSome? fun r2 =>
      (optSpace r2).findSome? fun r3 =>
        match numToken r3 with
        | qr :: _ => some (pr.1, qr.1)
        | [] => none

/-- Embedding of `re.search`: the match at the leftmost position where one exists. -/
def reSearch : List Char → Option (List Char × List Char)
  | [] => matchAt []
  | c :: rest =>
    match matchAt (c :: rest) with
    | some m => some m
    | none => reSearch rest

/-- Embedding of `stringToGeo(string)`: the dict of the first two captured groups, or
`False` (here `none`) when the pattern does not occur. -/
def stringToGeo (s : String) : Option (String × String) :=
  match reSearch s.toList with
  | some (g1, g2) => some (String.mk g1, String.mk g2)
  | none => none

/-! Sample fixtures for concrete evaluations. -/

def sampleProfile : Profile := ⟨⟨"29.97913", "31.13427"⟩, 2000, "temporal", none⟩

def sampleDB : DBT := fun k => if k = "u1" then some sampleProfile else none

/-! Helper lemmas about the store and the rate limiter. -/

theorem toDB_of_some {db : DBT} {id : String} {p : Profile} (upd : Profile → Profile)
    (h : db id = some p) :
    toDB db id upd = (true, fun k => if k = id then (db k).map upd else db k) := by
  unfold toDB; rw [h]

theorem toDB_snd_at {db : DBT} {id : String} {p : Profile} {upd : Profile → Profile}
    (h : db id = some p) :
    (toDB db id upd).2 id = some (upd p) := by
  rw [toDB_of_some upd h]; simp [h]

theorem rateLimit_of_ts_none {db : DBT} {id : String} {p : Profile} (now : Int)
    (h : db id = some p) (hts : p.ts = none) :
    rateLimit db id now
      = some (REQUEST_LIMIT, (toDB db id (fun q => { q with ts := some now })).2) := by
  simp only [rateLimit, h, hts]

theorem rateLimit_of_recent {db : DBT} {id : String} {p : Profile} {t now : Int}
    (h : db id = some p) (hts : p.ts = some t) (hlt : now - t < REQUEST_LIMIT) :
    rateLimit db id now = some (now - t, db) := by
  simp only [rateLimit, h, hts]
  rw [if_pos hlt]

theorem rateLimit_of_stale {db : DBT} {id : String} {p : Profile} {t now : Int}
    (h : db id = some p) (hts : p.ts = some t) (hge : ¬ now - t < REQUEST_LIMIT) :
    rateLimit db id now
      = some (REQUEST_LIMIT, (toDB db id (fun q => { q with ts := some now })).2) := by
  simp only [rateLimit, h, hts]
  rw [if_neg hge]

/-- Every profile survives the rate limiter with location, radius and source
untouched. -/
theorem rateLimit_exists {db : DBT} {id : String} {p : Profile} (now : Int)
    (h : db id = some p) :
    ∃ req db1 p1, rateLimit db id now = some (req, db1) ∧ db1 id = some p1 ∧
      p1.loc = p.loc ∧ p1.rad = p.rad ∧ p1.src = p.src := by
  cases hts : p.ts with
  | none =>
    refine ⟨REQUEST_LIMIT, _, { p with ts := some now },
      rateLimit_of_ts_none now h hts, toDB_snd_at h, rfl, rfl, rfl⟩
  | some t =>
    by_cases hlt : now - t < REQUEST_LIMIT
    · exact ⟨now - t, db, p, rateLimit_of_recent h hts hlt, h, rfl, rfl, rfl⟩
    · refine ⟨REQUEST_LIMIT, _, { p with ts := some now },
        rateLimit_of_stale h hts hlt, toDB_snd_at h, rfl, rfl, rfl⟩

/-- C5: setting a radius in `[1000, 10000]` on an existing profile replies
with the success message and the profile then reads back that radius; an
out-of-range radius leaves the store untouched and replies with the limits
message. -/
theorem setRadius_spec (db : DBT) (id : String) (p : Profile) (r : Int)
    (h : db id = some p) :
    ((1000 : Int) ≤ r → r ≤ 10000 →
      (setRadius db id r).1 = [MSG_RADIUS_SET r] ∧
      (setRadius db id r).2 id = some { p with rad := r }) ∧
    ((r < 1000 ∨ r > 10000) →
      (setRadius db id r).1 = [MSG_SET_RADIUS_LIMITS] ∧ (setRadius db id r).2 = db) := by
  constructor
  · intro h1 h2
    have hcond : ¬ (r < DEFAULT_RADIUS_MIN ∨ r > DEFAULT_RADIUS_MAX) := by
      unfold DEFAULT_RADIUS_MIN DEFAULT_RADIUS_MAX; omega
    unfold setRadius
    rw [if_neg hcond, toDB_of_some _ h]
    exact ⟨rfl, by simp [h]⟩
  · intro hout
    have hcond : r < DEFAULT_RADIUS_MIN ∨ r > DEFAULT_RADIUS_MAX := by
      unfold DEFAULT_RADIUS_MIN DEFAULT_RADIUS_MAX; omega
    unfold setRadius
    rw [if_pos hcond]
    exact ⟨rfl, rfl⟩

theorem setRadius_spec_witness :
    ((setRadius sampleDB "u1" 5000).1 = [MSG_RADIUS_SET 5000] ∧
      (setRadius sampleDB "u1" 5000).2 "u1" = some { sampleProfile with rad := 5000 }) ∧
    ((setRadius sampleDB "u1" 300).1 = [MSG_SET_RADIUS_LIMITS] ∧
      (setRadius sampleDB "u1" 300).2 = sampleDB) :=
  ⟨(setRadius_spec sampleDB "u1" sampleProfile 5000 rfl).1 (by decide) (by decide),
   (setRadius_spec sampleDB "u1" sampleProfile 300 rfl).2 (Or.inl (by decide))⟩

/-- C6: an unknown entropy source never mutates the store; with an existing
profile the reply carries the current source and the enumerated source list,
and with no profile it is the set-location prompt. -/
theorem setSource_invalid_spec (db : DBT) (id s : String) (hs : s ∉ SOURCES) :
    (setSource db id s).2 = db ∧
    (∀ p, db id = some p →
      (setSource db id s).1 = [MSG_SOURCE_INVALID s p.src, MSG_SOURCE_AVAILABLE]) ∧
    (db id = none → (setSource db id s).1 = [MSG_SET_LOCATION]) := by
  unfold setSource
  rw [if_neg hs]
  refine ⟨?_, ?_, ?_⟩
  · cases hdb : db id <;> simp [fromDB, hdb]
  · intro p hp; simp [fromDB, hp]
  · intro hp; simp [fromDB, hp]

theorem setSource_invalid_spec_witness :
    ¬ ("quantum" ∈ SOURCES) ∧
    ((setSource sampleDB "u1" "quantum").2 = sampleDB ∧
     (∀ p, sampleDB "u1" = some p →
       (setSource sampleDB "u1" "quantum").1
         = [MSG_SOURCE_INVALID "quantum" p.src, MSG_SOURCE_AVAILABLE]) ∧
     (sampleDB "u1" = none → (setSource sampleDB "u1" "quantum").1 = [MSG_SET_LOCATION])) :=
  ⟨by decide, setSource_invalid_spec sampleDB "u1" "quantum" (by decide)⟩

/-- C7: a fetchAnomaly call for an id with no profile replies exactly with the
set-location prompt, leaves the store unchanged, and issues no API request. -/
theorem fetchAnomaly_no_profile (db : DBT) (id ty : String) (now : Int)
    (api : String → ApiJson) (h : db id = none) :
    fetchAnomaly db id ty now api = ⟨some [MSG_SET_LOCATION], db, []⟩ := by
  unfold fetchAnomaly; rw [h]

theorem fetchAnomaly_no_profile_witness :
    fetchAnomaly sampleDB "nobody" "void" 100 (fun _ => ⟨none, none, none⟩)
      = ⟨some [MSG_SET_LOCATION], sampleDB, []⟩ :=
  fetchAnomaly_no_profile sampleDB "nobody" "void" 100 (fun _ => ⟨none, none, none⟩) rfl

/-- C8: setLocation always replies with the single default-radius message;
it creates the profile with default radius 2000, source temporal and no
timestamp when the id is new, and overwrites only the location otherwise. -/
theorem setLocation_spec (db : DBT) (id lat lon : String) :
    (setLocation db id lat lon).1 = [MSG_DEFAULT_RADIUS] ∧
    (db id = none →
      (setLocation db id lat lon).2 id = some ⟨⟨lat, lon⟩, 2000, "temporal", none⟩) ∧
    (∀ p, db id = some p →
      (setLocation db id lat lon).2 id = some { p with loc := ⟨lat, lon⟩ }) := by
  refine ⟨?_, ?_, ?_⟩
  · unfold setLocation toDB
    cases hdb : db id <;> simp
  · intro hdb
    unfold setLocation toDB initUserLocation
    rw [hdb]
    simp [hdb]
    exact ⟨rfl, rfl⟩
  · intro p hp
    unfold setLocation
    dsimp only
    rw [toDB_of_some _ hp]
    simp [hp]

theorem setLocation_spec_witness :
    (setLocation sampleDB "u2" "1.5" "2.5").1 = [MSG_DEFAULT_RADIUS] ∧
    (setLocation sampleDB "u2" "1.5" "2.5").2 "u2"
      = some ⟨⟨"1.5", "2.5"⟩, 2000, "temporal", none⟩ ∧
    (setLocation sampleDB "u1" "1.5" "2.5").2 "u1"
      = some { sampleProfile with loc := ⟨"1.5", "2.5"⟩ } :=
  ⟨(setLocation_spec sampleDB "u2" "1.5" "2.5").1,
   (setLocation_spec sampleDB "u2" "1.5" "2.5").2.1 rfl,
   (setLocation_spec sampleDB "u1" "1.5" "2.5").2.2 sampleProfile rfl⟩

/-! Helper lemmas for the fetch paths. -/

theorem fetchAnomaly_denied {db : DBT} {id : String} {p : Profile} {req : Int} {db1 : DBT}
    (ty : String) {now : Int} (api : String → ApiJson)
    (h : db id = some p) (hrl : rateLimit db id now = some (req, db1))
    (hreq : req < REQUEST_LIMIT) :
    fetchAnomaly db id ty now api
      = ⟨some [MSG_RATE_LIMIT_REACHED (REQUEST_LIMIT - req)], db1, []⟩ := by
  simp only [fetchAnomaly, h, hrl]
  rw [if_pos hreq]

theorem fetchAnomaly_allowed_db {db : DBT} {id : String} {p user : Profile} {req : Int}
    {db1 : DBT} (ty : String) {now : Int} (api : String → ApiJson)
    (h : db id = some p) (hrl : rateLimit db id now = some (req, db1))
    (hreq : ¬ req < REQUEST_LIMIT) (hu : db1 id = some user) :
    (fetchAnomaly db id ty now api).db = db1 := by
  simp only [fetchAnomaly, h, hrl, if_neg hreq, hu]
  (repeat' split) <;> rfl

theorem fetchBlindspot_pseudo_db {db : DBT} {id : String} {p user : Profile} {req : Int}
    {db1 : DBT} {now : Int} (api : String → ApiJson)
    (h : db id = some p) (hrl : rateLimit db id now = some (req, db1))
    (hreq : ¬ req < REQUEST_LIMIT) (hu : db1 id = some user) :
    (fetchBlindspot db id "pseudo" now api).db
      = (toDB ((toDB db1 id (fun q => { q with src := "pseudo" })).2) id
          (fun q => { q with src := user.src })).2 := by
  simp only [fetchBlindspot, h, hrl, if_neg hreq, hu, reduceIte, toDB_snd_at hu]
  (repeat' split) <;> rfl

theorem fetchBlindspot_pseudo_calls {db : DBT} {id : String} {p user : Profile} {req : Int}
    {db1 : DBT} {now : Int} (api : String → ApiJson)
    (h : db id = some p) (hrl : rateLimit db id now = some (req, db1))
    (hreq : ¬ req < REQUEST_LIMIT) (hu : db1 id = some user) :
    (fetchBlindspot db id "pseudo" now api).calls
      = [setDefaultParams { user with src := "pseudo" }] := by
  simp only [fetchBlindspot, h, hrl, if_neg hreq, hu, reduceIte, toDB_snd_at hu]
  (repeat' split) <;> rfl

/-- C2: with no timestamp the limiter allows and records `now`; with a recent
timestamp it denies with wait `LIMIT - elapsed` without touching the store;
with a stale timestamp (including `elapsed = LIMIT`) it allows and records
`now`; and on allowance the new timestamp is in the store after
`fetchAnomaly` for every API outcome. -/
theorem rateLimit_spec (db : DBT) (id : String) (p : Profile) (now : Int)
    (h : db id = some p) :
    (p.ts = none →
      ∃ db1, rateLimit db id now = some (REQUEST_LIMIT, db1) ∧
        db1 id = some { p with ts := some now }) ∧
    (∀ t, p.ts = some t → now - t < REQUEST_LIMIT →
      rateLimit db id now = some (now - t, db) ∧
      ∀ ty api, (fetchAnomaly db id ty now api).reply
          = some [MSG_RATE_LIMIT_REACHED (REQUEST_LIMIT - (now - t))] ∧
        (fetchAnomaly db id ty now api).db = db) ∧
    (∀ t, p.ts = some t → REQUEST_LIMIT ≤ now - t →
      ∃ db1, rateLimit db id now = some (REQUEST_LIMIT, db1) ∧
        db1 id = some { p with ts := some now }) ∧
    (∀ ty api, (p.ts = none ∨ ∃ t, p.ts = some t ∧ REQUEST_LIMIT ≤ now - t) →
      ∃ p1, (fetchAnomaly db id ty now api).db id = some p1 ∧ p1.ts = some now) := by
  refine ⟨?_, ?_, ?_, ?_⟩
  · intro hts
    exact ⟨_, rateLimit_of_ts_none now h hts, toDB_snd_at h⟩
  · intro t hts hlt
    have hrl := rateLimit_of_recent h hts hlt
    refine ⟨hrl, ?_⟩
    intro ty api
    rw [fetchAnomaly_denied ty api h hrl hlt]
    exact ⟨rfl, rfl⟩
  · intro t hts hge
    exact ⟨_, rateLimit_of_stale h hts (by omega), toDB_snd_at h⟩
  · intro ty api hcase
    have hrl : rateLimit db id now
        = some (REQUEST_LIMIT, (toDB db id (fun q => { q with ts := some now })).2) := by
      rcases hcase with hts | ⟨t, hts, hge⟩
      · exact rateLimit_of_ts_none now h hts
      · exact rateLimit_of_stale h hts (by omega)
    have hu : ((toDB db id (fun q => { q with ts := some now })).2) id
        = some { p with ts := some now } := toDB_snd_at h
    rw [fetchAnomaly_allowed_db ty api h hrl (by omega) hu]
    exact ⟨_, hu, rfl⟩

theorem rateLimit_spec_witness :
    (∃ db1, rateLimit sampleDB "u1" 100 = some (REQUEST_LIMIT, db1) ∧
      db1 "u1" = some { sampleProfile with ts := some 100 }) ∧
    (∃ p1, (fetchAnomaly sampleDB "u1" "void" 100 (fun _ => ⟨none, none, none⟩)).db "u1"
        = some p1 ∧ p1.ts = some 100) := by
  have hspec := rateLimit_spec sampleDB "u1" sampleProfile 100 rfl
  exact ⟨hspec.1 rfl, hspec.2.2.2 "void" (fun _ => ⟨none, none, none⟩) (Or.inl rfl)⟩

/-- C1: a `fetchBlindspot(id, 'pseudo')` call on an existing profile leaves
the persisted entropy source equal to its pre-call value on every outcome,
and any API request it issues carries source `pseudo`. -/
theorem fetchBlindspot_pseudo_override (db : DBT) (id : String) (now : Int)
    (api : String → ApiJson) (p : Profile) (h : db id = some p) :
    (∃ p1, (fetchBlindspot db id "pseudo" now api).db id = some p1 ∧ p1.src = p.src) ∧
    (∀ q, q ∈ (fetchBlindspot db id "pseudo" now api).calls →
      ∃ u, q = setDefaultParams u ∧ u.src = "pseudo") := by
  obtain ⟨req, db1, p1, hrl, hp1, hloc, hrad, hsrc⟩ := rateLimit_exists now h
  by_cases hreq : req < REQUEST_LIMIT
  · have hout : fetchBlindspot db id "pseudo" now api
        = ⟨some [MSG_RATE_LIMIT_REACHED (REQUEST_LIMIT - req)], db1, []⟩ := by
      simp only [fetchBlindspot, h, hrl]
      rw [if_pos hreq]
    rw [hout]
    refine ⟨⟨p1, hp1, hsrc⟩, ?_⟩
    intro q hq
    cases hq
  · have hdbeq := fetchBlindspot_pseudo_db api h hrl hreq hp1
    have hcalls := fetchBlindspot_pseudo_calls api h hrl hreq hp1
    have hu2 : ((toDB db1 id (fun q => { q with src := "pseudo" })).2) id
        = some { p1 with src := "pseudo" } := toDB_snd_at hp1
    refine ⟨⟨{ p1 with src := p1.src }, ?_, hsrc⟩, ?_⟩
    · rw [hdbeq]
      exact @toDB_snd_at _ _ { p1 with src := "pseudo" } (fun q => { q with src := p1.src }) hu2
    · intro q hq
      rw [hcalls] at hq
      refine ⟨{ p1 with src := "pseudo" }, ?_, rfl⟩
      simpa using hq

theorem fetchBlindspot_pseudo_override_witness :
    (∃ p1, (fetchBlindspot sampleDB "u1" "pseudo" 100
        (fun _ => ⟨none, some 500, some "boom"⟩)).db "u1" = some p1 ∧
      p1.src = sampleProfile.src) ∧
    (∀ q, q ∈ (fetchBlindspot sampleDB "u1" "pseudo" 100
        (fun _ => ⟨none, some 500, some "boom"⟩)).calls →
      ∃ u, q = setDefaultParams u ∧ u.src = "pseudo") :=
  fetchBlindspot_pseudo_override sampleDB "u1" 100
    (fun _ => ⟨none, some 500, some "boom"⟩) sampleProfile rfl

/-- C4: on an error-shaped response, fetchAnomaly replies with the fixed
no-anomaly message exactly for status 418 and the raw error text otherwise;
fetchBlindspot replies with the raw error text for every status. -/
theorem fetch_error_mapping (db : DBT) (id ty : String) (now s : Int) (e : String)
    (p : Profile) (h : db id = some p) (hts : p.ts = none) :
    (fetchAnomaly db id ty now (fun _ => ⟨none, some s, some e⟩)).reply
      = some (if s = 418 then [MSG_NO_ANOMALY_FOUND] else [e]) ∧
    (fetchBlindspot db id ty now (fun _ => ⟨none, some s, some e⟩)).reply = some [e] := by
  have hrl := rateLimit_of_ts_none now h hts
  have hu : ((toDB db id (fun q => { q with ts := some now })).2) id
      = some { p with ts := some now } := toDB_snd_at h
  have hreq : ¬ REQUEST_LIMIT < REQUEST_LIMIT := lt_irrefl _
  constructor
  · simp only [fetchAnomaly, h, hrl, if_neg hreq, hu]
    by_cases h418 : s = 418 <;> simp [h418]
  · by_cases hty : ty = "pseudo"
    · subst hty
      simp only [fetchBlindspot, h, hrl, if_neg hreq, hu, reduceIte, toDB_snd_at hu]
    · simp only [fetchBlindspot, h, hrl, if_neg hreq, hu, if_neg hty]

theorem fetch_error_mapping_witness :
    ((fetchAnomaly sampleDB "u1" "void" 100 (fun _ => ⟨none, some 418, some "teapot"⟩)).reply
      = some (if (418 : Int) = 418 then [MSG_NO_ANOMALY_FOUND] else ["teapot"]) ∧
     (fetchBlindspot sampleDB "u1" "void" 100
        (fun _ => ⟨none, some 418, some "teapot"⟩)).reply = some ["teapot"]) ∧
    ((fetchAnomaly sampleDB "u1" "void" 100 (fun _ => ⟨none, some 500, some "boom"⟩)).reply
      = some (if (500 : Int) = 418 then [MSG_NO_ANOMALY_FOUND] else ["boom"])) :=
  ⟨fetch_error_mapping sampleDB "u1" "void" 100 418 "teapot" sampleProfile rfl rfl,
   (fetch_error_mapping sampleDB "u1" "void" 100 500 "boom" sampleProfile rfl rfl).1⟩

/-- C10: a response whose result carries an empty points list makes both
fetch operations end without any reply (the unguarded first-element index). -/
theorem empty_points_no_reply (db : DBT) (id ty : String) (now : Int) (p : Profile)
    (h : db id = some p) (hts : p.ts = none) :
    (fetchAnomaly db id ty now (fun _ => ⟨some [], none, none⟩)).reply = none ∧
    (fetchBlindspot db id ty now (fun _ => ⟨some [], none, none⟩)).reply = none := by
  have hrl := rateLimit_of_ts_none now h hts
  have hu : ((toDB db id (fun q => { q with ts := some now })).2) id
      = some { p with ts := some now } := toDB_snd_at h
  have hreq : ¬ REQUEST_LIMIT < REQUEST_LIMIT := lt_irrefl _
  constructor
  · simp only [fetchAnomaly, h, hrl, if_neg hreq, hu]
  · by_cases hty : ty = "pseudo"
    · subst hty
      simp only [fetchBlindspot, h, hrl, if_neg hreq, hu, reduceIte, toDB_snd_at hu]
    · simp only [fetchBlindspot, h, hrl, if_neg hreq, hu, if_neg hty]

theorem empty_points_no_reply_witness :
    (fetchAnomaly sampleDB "u1" "void" 100 (fun _ => ⟨some [], none, none⟩)).reply = none ∧
    (fetchBlindspot sampleDB "u1" "void" 100 (fun _ => ⟨some [], none, none⟩)).reply = none :=
  empty_points_no_reply sampleDB "u1" "void" 100 sampleProfile rfl rfl

/-! Response shapes under which the fetch operations are guaranteed to
produce a reply (used by the amended reply contract). -/

def wellShapedAnomaly (j : ApiJson) : Bool :=
  match j.result with
  | some points =>
    match points with
    | point :: _ => (pyIndex POINT_TYPE point.ptype).isSome
    | [] => false
  | none => j.error.isSome && j.status.isSome

def wellShapedBlindspot (j : ApiJson) : Bool :=
  match j.result with
  | some points => !points.isEmpty
  | none => j.error.isSome

/-- C3 counterexample: an API response with neither `result` nor `error`
makes `fetchAnomaly` end with no reply payload at all, and `setSource` with
an unknown source on an existing profile replies with two strings, not one. -/
theorem reply_contract_cex :
    (fetchAnomaly sampleDB "u1" "void" 100 (fun _ => ⟨none, none, none⟩)).reply = none ∧
    ((setSource sampleDB "u1" "quantum").1).length = 2 := by
  constructor
  · rfl
  · rfl

/-- Per-path reply contract for a fetch outcome that issued no API request
and replied with a single message. -/
theorem noCall_contract (m : String) (d : DBT) (api : String → ApiJson) (tag : String) :
    ∃ l, (FetchOut.mk (some [m]) d []).reply = some l ∧
      ((FetchOut.mk (some [m]) d []).calls = [] ∨
        ∃ q, (FetchOut.mk (some [m]) d []).calls = [q]) ∧
      ((FetchOut.mk (some [m]) d []).calls = [] → l.length = 1) ∧
      (∀ q, (FetchOut.mk (some [m]) d []).calls = [q] →
        (∀ pts, (api q).result = some pts →
          ∃ m2 pt2 rest2, pts = pt2 :: rest2 ∧ l = [m2, tag ++ pt2.lat ++ "," ++ pt2.lon]) ∧
        ((api q).result = none → l.length = 1)) := by
  refine ⟨[m], rfl, Or.inl rfl, fun _ => rfl, ?_⟩
  intro q hq
  exact List.noConfusion hq

/-- Per-path reply contract for a fetch outcome whose one issued request got
an error-shaped response and that replied with a single message. -/
theorem oneCall_err_contract (m : String) (d : DBT) (api : String → ApiJson)
    (tag prm : String) (hres : (api prm).result = none) :
    ∃ l, (FetchOut.mk (some [m]) d [prm]).reply = some l ∧
      ((FetchOut.mk (some [m]) d [prm]).calls = [] ∨
        ∃ q, (FetchOut.mk (some [m]) d [prm]).calls = [q]) ∧
      ((FetchOut.mk (some [m]) d [prm]).calls = [] → l.length = 1) ∧
      (∀ q, (FetchOut.mk (some [m]) d [prm]).calls = [q] →
        (∀ pts, (api q).result = some pts →
          ∃ m2 pt2 rest2, pts = pt2 :: rest2 ∧ l = [m2, tag ++ pt2.lat ++ "," ++ pt2.lon]) ∧
        ((api q).result = none → l.length = 1)) := by
  refine ⟨[m], rfl, Or.inr ⟨prm, rfl⟩, ?_, ?_⟩
  · intro h
    exact List.noConfusion h
  · intro q hq
    rw [List.cons.injEq] at hq
    obtain ⟨h1, -⟩ := hq
    subst h1
    refine ⟨?_, fun _ => rfl⟩
    intro pts hpts
    rw [hres] at hpts
    exact Option.noConfusion hpts

/-- Per-path reply contract for a fetch outcome whose one issued request got
a result with first point `pt` and that replied with the two-string pair. -/
theorem oneCall_success_contract (m : String) (d : DBT) (api : String → ApiJson)
    (tag prm : String) (pt : Point) (rest : List Point)
    (hres : (api prm).result = some (pt :: rest)) :
    ∃ l, (FetchOut.mk (some [m, tag ++ pt.lat ++ "," ++ pt.lon]) d [prm]).reply = some l ∧
      ((FetchOut.mk (some [m, tag ++ pt.lat ++ "," ++ pt.lon]) d [prm]).calls = [] ∨
        ∃ q, (FetchOut.mk (some [m, tag ++ pt.lat ++ "," ++ pt.lon]) d [prm]).calls = [q]) ∧
      ((FetchOut.mk (some [m, tag ++ pt.lat ++ "," ++ pt.lon]) d [prm]).calls = [] →
        l.length = 1) ∧
      (∀ q, (FetchOut.mk (some [m, tag ++ pt.lat ++ "," ++ pt.lon]) d [prm]).calls = [q] →
        (∀ pts, (api q).result = some pts →
          ∃ m2 pt2 rest2, pts = pt2 :: rest2 ∧ l = [m2, tag ++ pt2.lat ++ "," ++ pt2.lon]) ∧
        ((api q).result = none → l.length = 1)) := by
  refine ⟨[m, tag ++ pt.lat ++ "," ++ pt.lon], rfl, Or.inr ⟨prm, rfl⟩, ?_, ?_⟩
  · intro h
    exact List.noConfusion h
  · intro q hq
    rw [List.cons.injEq] at hq
    obtain ⟨h1, -⟩ := hq
    subst h1
    refine ⟨?_, ?_⟩
    · intro pts hpts
      rw [hres] at hpts
      injection hpts with h2
      exact ⟨m, pt, rest, h2.symm, rfl⟩
    · intro hnone
      rw [hres] at hnone
      exact Option.noConfusion hnone

/-- C3 amended: setLocation and setRadius always reply with exactly one
string; setSource replies with exactly two strings when the source is
unknown and a profile exists, and with exactly one string otherwise (known
source, or no profile); each fetch issues at most one API request and, when
every API response is well shaped, replies — with exactly two strings, a
human message and the machine-coordinate string tagged `@@` (anomaly) or
`geo:` (blindspot) built from the first returned point, precisely when the
issued request got a result, and with exactly one string on every other
path (no profile, rate-limit denial, error response). -/
theorem reply_contract_amended :
    (∀ db id lat lon, (setLocation db id lat lon).1 = [MSG_DEFAULT_RADIUS]) ∧
    (∀ db id r, ((setRadius db id r).1).length = 1) ∧
    (∀ db id s, s ∈ SOURCES → ((setSource db id s).1).length = 1) ∧
    (∀ db id s, db id = none → ((setSource db id s).1).length = 1) ∧
    (∀ db id s p, s ∉ SOURCES → db id = some p → ((setSource db id s).1).length = 2) ∧
    (∀ db id ty now api, (∀ q, wellShapedAnomaly (api q) = true) →
      ∃ l, (fetchAnomaly db id ty now api).reply = some l ∧
        ((fetchAnomaly db id ty now api).calls = [] ∨
          ∃ q, (fetchAnomaly db id ty now api).calls = [q]) ∧
        ((fetchAnomaly db id ty now api).calls = [] → l.length = 1) ∧
        (∀ q, (fetchAnomaly db id ty now api).calls = [q] →
          (∀ pts, (api q).result = some pts →
            ∃ m pt rest, pts = pt :: rest ∧ l = [m, "@@" ++ pt.lat ++ "," ++ pt.lon]) ∧
          ((api q).result = none → l.length = 1))) ∧
    (∀ db id ty now api, (∀ q, wellShapedBlindspot (api q) = true) →
      ∃ l, (fetchBlindspot db id ty now api).reply = some l ∧
        ((fetchBlindspot db id ty now api).calls = [] ∨
          ∃ q, (fetchBlindspot db id ty now api).calls = [q]) ∧
        ((fetchBlindspot db id ty now api).calls = [] → l.length = 1) ∧
        (∀ q, (fetchBlindspot db id ty now api).calls = [q] →
          (∀ pts, (api q).result = some pts →
            ∃ m pt rest, pts = pt :: rest ∧ l = [m, "geo:" ++ pt.lat ++ "," ++ pt.lon]) ∧
          ((api q).result = none → l.length = 1))) := by
  refine ⟨?_, ?_, ?_, ?_, ?_, ?_, ?_⟩
  · intro db id lat lon
    unfold setLocation
    dsimp only
    cases toDB db id fun p => { p with loc := ⟨lat, lon⟩ } with
    | mk ok db1 => cases ok <;> rfl
  · intro db id r
    unfold setRadius
    by_cases hr : r < DEFAULT_RADIUS_MIN ∨ r > DEFAULT_RADIUS_MAX
    · rw [if_pos hr]
      rfl
    · rw [if_neg hr]
      cases toDB db id fun p => { p with rad := r } with
      | mk ok db1 => cases ok <;> rfl
  · intro db id s hs
    unfold setSource
    rw [if_pos hs]
    cases toDB db id fun p => { p with src := s } with
    | mk ok db1 => cases ok <;> rfl
  · intro db id s hdb
    unfold setSource
    by_cases hs : s ∈ SOURCES
    · rw [if_pos hs]
      unfold toDB
      rw [hdb]
      rfl
    · rw [if_neg hs]
      unfold fromDB
      rw [hdb]
      rfl
  · intro db id s p hs hp
    unfold setSource
    rw [if_neg hs]
    unfold fromDB
    rw [hp]
    rfl
  · intro db id ty now api hw
    cases hdb : db id with
    | none =>
      have hout : fetchAnomaly db id ty now api = ⟨some [MSG_SET_LOCATION], db, []⟩ := by
        simp only [fetchAnomaly, hdb]
      rw [hout]
      exact noCall_contract MSG_SET_LOCATION db api "@@"
    | some p =>
      obtain ⟨req, db1, p1, hrl, hp1, -, -, -⟩ := rateLimit_exists now hdb
      by_cases hreq : req < REQUEST_LIMIT
      · have hout : fetchAnomaly db id ty now api
            = ⟨some [MSG_RATE_LIMIT_REACHED (REQUEST_LIMIT - req)], db1, []⟩ := by
          simp only [fetchAnomaly, hdb, hrl]
          rw [if_pos hreq]
        rw [hout]
        exact noCall_contract _ db1 api "@@"
      · have hwq := hw (setDefaultParams p1 ++ "&type=" ++ ty)
        cases hres : (api (setDefaultParams p1 ++ "&type=" ++ ty)).result with
        | some points =>
          cases points with
          | nil =>
            simp only [wellShapedAnomaly, hres] at hwq
            exact Bool.noConfusion hwq
          | cons pt rest =>
            rw [wellShapedAnomaly, hres] at hwq
            obtain ⟨tname, htn⟩ := Option.isSome_iff_exists.mp hwq
            have hout : fetchAnomaly db id ty now api
                = ⟨some [MSG_ANOMALY_FOUND tname p1.src pt.lat pt.lon pt.power pt.radius
                    pt.z_score pt.distance pt.bearing,
                    "@@" ++ pt.lat ++ "," ++ pt.lon], db1,
                   [setDefaultParams p1 ++ "&type=" ++ ty]⟩ := by
              simp only [fetchAnomaly, hdb, hrl, if_neg hreq, hp1, hres, htn]
            rw [hout]
            exact oneCall_success_contract _ db1 api "@@" _ pt rest hres
        | none =>
          simp only [wellShapedAnomaly, hres, Bool.and_eq_true,
            Option.isSome_iff_exists] at hwq
          obtain ⟨⟨e, herr⟩, s, hsts⟩ := hwq
          by_cases h418 : s = 418
          · have hout : fetchAnomaly db id ty now api
                = ⟨some [MSG_NO_ANOMALY_FOUND], db1,
                   [setDefaultParams p1 ++ "&type=" ++ ty]⟩ := by
              simp only [fetchAnomaly, hdb, hrl, if_neg hreq, hp1, hres, herr, hsts,
                h418, reduceIte]
            rw [hout]
            exact oneCall_err_contract _ db1 api "@@" _ hres
          · have hout : fetchAnomaly db id ty now api
                = ⟨some [e], db1, [setDefaultParams p1 ++ "&type=" ++ ty]⟩ := by
              simp only [fetchAnomaly, hdb, hrl, if_neg hreq, hp1, hres, herr, hsts,
                if_neg h418]
            rw [hout]
            exact oneCall_err_contract _ db1 api "@@" _ hres
  · intro db id ty now api hw
    cases hdb : db id with
    | none =>
      have hout : fetchBlindspot db id ty now api = ⟨some [MSG_SET_LOCATION], db, []⟩ := by
        simp only [fetchBlindspot, hdb]
      rw [hout]
      exact noCall_contract MSG_SET_LOCATION db api "geo:"
    | some p =>
      obtain ⟨req, db1, p1, hrl, hp1, -, -, -⟩ := rateLimit_exists now hdb
      by_cases hreq : req < REQUEST_LIMIT
      · have hout : fetchBlindspot db id ty now api
            = ⟨some [MSG_RATE_LIMIT_REACHED (REQUEST_LIMIT - req)], db1, []⟩ := by
          simp only [fetchBlindspot, hdb, hrl]
          rw [if_pos hreq]
        rw [hout]
        exact noCall_contract _ db1 api "geo:"
      · by_cases hty : ty = "pseudo"
        · subst hty
          have hu2 : ((toDB db1 id (fun q => { q with src := "pseudo" })).2) id
              = some { p1 with src := "pseudo" } := toDB_snd_at hp1
          have hwq := hw (setDefaultParams { p1 with src := "pseudo" })
          cases hres : (api (setDefaultParams { p1 with src := "pseudo" })).result with
          | some points =>
            cases points with
            | nil =>
              simp only [wellShapedBlindspot, hres] at hwq
              exact Bool.noConfusion hwq
            | cons pt rest =>
              have hout : fetchBlindspot db id "pseudo" now api
                  = ⟨some [MSG_BLINDSPOT_FOUND "pseudo" pt.lat pt.lon pt.distance pt.bearing,
                      "geo:" ++ pt.lat ++ "," ++ pt.lon],
                     (toDB ((toDB db1 id (fun q => { q with src := "pseudo" })).2) id
                       (fun q => { q with src := p1.src })).2,
                     [setDefaultParams { p1 with src := "pseudo" }]⟩ := by
                simp only [fetchBlindspot, hdb, hrl, if_neg hreq, hp1, reduceIte, hu2, hres]
              rw [hout]
              exact oneCall_success_contract _ _ api "geo:" _ pt rest hres
          | none =>
            simp only [wellShapedBlindspot, hres, Option.isSome_iff_exists] at hwq
            obtain ⟨e, herr⟩ := hwq
            have hout : fetchBlindspot db id "pseudo" now api
                = ⟨some [e],
                   (toDB ((toDB db1 id (fun q => { q with src := "pseudo" })).2) id
                     (fun q => { q with src := p1.src })).2,
                   [setDefaultParams { p1 with src := "pseudo" }]⟩ := by
              simp only [fetchBlindspot, hdb, hrl, if_neg hreq, hp1, reduceIte, hu2, hres, herr]
            rw [hout]
            exact oneCall_err_contract _ _ api "geo:" _ hres
        · have hwq := hw (setDefaultParams p1)
          cases hres : (api (setDefaultParams p1)).result with
          | some points =>
            cases points with
            | nil =>
              simp only [wellShapedBlindspot, hres] at hwq
              exact Bool.noConfusion hwq
            | cons pt rest =>
              have hout : fetchBlindspot db id ty now api
                  = ⟨some [MSG_BLINDSPOT_FOUND p1.src pt.lat pt.lon pt.distance pt.bearing,
                      "geo:" ++ pt.lat ++ "," ++ pt.lon],
                     (toDB db1 id (fun q => { q with src := p1.src })).2,
                     [setDefaultParams p1]⟩ := by
                simp only [fetchBlindspot, hdb, hrl, if_neg hreq, hp1, if_neg hty, hres]
              rw [hout]
              exact oneCall_success_contract _ _ api "geo:" _ pt rest hres
          | none =>
            simp only [wellShapedBlindspot, hres, Option.isSome_iff_exists] at hwq
            obtain ⟨e, herr⟩ := hwq
            have hout : fetchBlindspot db id ty now api
                = ⟨some [e], (toDB db1 id (fun q => { q with src := p1.src })).2,
                   [setDefaultParams p1]⟩ := by
              simp only [fetchBlindspot, hdb, hrl, if_neg hreq, hp1, if_neg hty, hres, herr]
            rw [hout]
            exact oneCall_err_contract _ _ api "geo:" _ hres

/-- A fixed error-shaped API collaborator used by concrete evaluations. -/
def errApi : String → ApiJson := fun _ => ⟨none, some 500, some "boom"⟩

theorem reply_contract_amended_witness :
    wellShapedAnomaly (errApi "x") = true ∧
    (∃ l, (fetchAnomaly sampleDB "u1" "void" 100 errApi).reply = some l ∧
      ((fetchAnomaly sampleDB "u1" "void" 100 errApi).calls = [] ∨
        ∃ q, (fetchAnomaly sampleDB "u1" "void" 100 errApi).calls = [q]) ∧
      ((fetchAnomaly sampleDB "u1" "void" 100 errApi).calls = [] → l.length = 1) ∧
      (∀ q, (fetchAnomaly sampleDB "u1" "void" 100 errApi).calls = [q] →
        (∀ pts, (errApi q).result = some pts →
          ∃ m pt rest, pts = pt :: rest ∧ l = [m, "@@" ++ pt.lat ++ "," ++ pt.lon]) ∧
        ((errApi q).result = none → l.length = 1))) :=
  ⟨rfl, reply_contract_amended.2.2.2.2.2.1 sampleDB "u1" "void" 100 errApi (fun _ => rfl)⟩

/-- C9: the coordinate parser yields the two captured groups of the first
match, unconverted, and nothing when no match exists; only the first of
several coordinate-like substrings is used. -/
theorem stringToGeo_examples :
    stringToGeo "29.97913,31.13427" = some ("29.97913", "31.13427") ∧
    stringToGeo "28.3809 -16.5379" = some ("28.3809", "-16.5379") ∧
    stringToGeo "no coordinates here" = none ∧
    stringToGeo "1.5,2.5 and 3.5,4.5" = some ("1.5", "2.5") := by
  refine ⟨?_, ?_, ?_, ?_⟩ <;> decide

end Fatum
